import Mathlib

/-!
Verification of the CDL dataset component (`torchgeo/datasets/cdl.py`).

Shallow embedding: the class `CDL` becomes a record `Dataset`; the external
collaborators (filesystem, rasterio, the torchvision helpers `check_integrity`
and `download_and_extract_archive`) are modelled by an explicit `FileSystem`
state and an abstract fetch-effect function.  Machine reals (coordinates) are
modelled as `Int`; pixel values as `Nat` with an explicit signed-32-bit
conversion for `astype(np.int32)`.  Python exceptions become `Except` errors.
-/

namespace CdlSpec

/-- `BoundingBox` from `torchgeo.datasets.utils`: the 6-tuple
`(minx, maxx, miny, maxy, mint, maxt)` used both for index entries and for
queries (the index is created with `interleaved=False`, so coordinates are
stored in exactly this order). -/
structure BoundingBox where
  minx : Int
  maxx : Int
  miny : Int
  maxy : Int
  mint : Int
  maxt : Int
deriving DecidableEq, Repr

/-- Closed-interval intersection test on all three axes, as performed by
`rtree`'s `index.intersection` for a 3-dimensional index. -/
def intersects (c q : BoundingBox) : Bool :=
  c.minx ≤ q.maxx && q.minx ≤ c.maxx &&
  c.miny ≤ q.maxy && q.miny ≤ c.maxy &&
  c.mint ≤ q.maxt && q.mint ≤ c.maxt

/-- One record stored in the spatiotemporal index: the bounding volume and the
raster filename passed as `obj` to `index.insert(0, coords, filename)`. -/
structure IndexEntry where
  coords : BoundingBox
  filename : String
deriving DecidableEq, Repr

/-- A georeferenced raster as seen through rasterio: its `bounds`
(left = minx, bottom = miny, right = maxx, top = maxy) and its band-1 pixel
grid, a total function from (row, col) to the stored cell value. -/
structure RasterFile where
  minx : Int
  miny : Int
  maxx : Int
  maxy : Int
  px : Int → Int → Nat

/-- The filesystem state under `root` as the class observes it:
`zipPresent y` — whether `root/cdl/<y>_30m_cdls.zip` exists;
`zipHash y` — its MD5 hash (meaningful when present);
`imgs` — the files matched by the glob `root/cdl/**_30m_cdls.img`, in glob
order; `raster` — the raster content behind each such path. -/
structure FileSystem where
  zipPresent : Int → Bool
  zipHash : Int → String
  imgs : List String
  raster : String → RasterFile

/-- `CDL.base_folder`. -/
def base_folder : String := "cdl"

/-- `os.path.join` for the simple relative paths used here. -/
def joinPath (a b : String) : String := a ++ "/" ++ b

/-- `CDL.url` with the year substituted for the placeholder. -/
def url (y : Int) : String :=
  "https://www.nass.usda.gov/Research_and_Science/Cropland/Release/datasets/"
    ++ toString y ++ "_30m_cdls.zip"

/-- `CDL.md5s`: the fixed table of (year, expected MD5) pairs. -/
def md5s : List (Int × String) :=
  [(2020, "97b3b5fd62177c9ed857010bca146f36"),
   (2019, "49d8052168c15c18f8b81ee21397b0bb"),
   (2018, "c7a3061585131ef049bec8d06c6d521e"),
   (2017, "dc8c1d7b255c9258d332dd8b23546c93"),
   (2016, "bb4df1b2ee6cedcc12a7e5a4527fcf1b"),
   (2015, "d17b4bb6ee7940af2c45d6854dafec09"),
   (2014, "6e0fcc800bd9f090f543104db93bead8"),
   (2013, "38df780d8b504659d837b4c53a51b3f7"),
   (2012, "2f3b46e6e4d91c3b7e2a049ba1531abc"),
   (2011, "dac7fe435c3c5a65f05846c715315460"),
   (2010, "18c9a00f5981d5d07ace69e3e33ea105"),
   (2009, "81a20629a4713de6efba2698ccb2aa3d"),
   (2008, "e6aa3967e379b98fd30c26abe9696053")]

/-- torchvision's `check_integrity(filepath, md5)` for the year's zip:
false when the file is absent; when `checksum` is false the MD5 argument is
`None` and presence suffices; otherwise the computed hash must equal the
expected one. -/
def check_file (fs : FileSystem) (checksum : Bool) (year : Int) (md5 : String) : Bool :=
  fs.zipPresent year && (!checksum || fs.zipHash year == md5)

/-- `CDL._check_integrity`: checks every (year, md5) pair of the table;
returns false as soon as one fails. -/
def check_integrity_all (fs : FileSystem) (checksum : Bool) : Bool :=
  md5s.all fun p => check_file fs checksum p.1 p.2

/-- One invocation of `download_and_extract_archive`: the year-specific URL,
the destination directory, and the MD5 passed (`None` when `checksum` is
false). -/
structure Fetch where
  url : String
  dest : String
  md5 : Option String
deriving DecidableEq, Repr

/-- The fetch `CDL._download` issues for a table entry. -/
def fetchFor (root : String) (checksum : Bool) (p : Int × String) : Fetch :=
  { url := url p.1, dest := joinPath root base_folder,
    md5 := if checksum then some p.2 else none }

/-- `CDL._download`, as the list of fetches it performs: if the global
integrity check passes it only prints a message and returns; otherwise it
invokes the fetcher once per table entry. -/
def download_fetches (fs : FileSystem) (root : String) (checksum : Bool) : List Fetch :=
  if check_integrity_all fs checksum then []
  else md5s.map (fetchFor root checksum)

/-- Python `str.split(sep)` on a character list: the maximal runs between
separator occurrences, empty runs included. -/
def splitChars (sep : Char) : List Char → List (List Char)
  | [] => [[]]
  | c :: rest =>
    let r := splitChars sep rest
    if c = sep then [] :: r
    else
      match r with
      | [] => [[c]]
      | h :: t => (c :: h) :: t

/-- Python `str.strip()`: drop leading and trailing whitespace. -/
def trimChars (l : List Char) : List Char :=
  ((l.dropWhile Char.isWhitespace).reverse.dropWhile Char.isWhitespace).reverse

/-- The value of a run of decimal digit characters. -/
def digitsToNat (l : List Char) : Nat :=
  l.foldl (fun acc c => acc * 10 + (c.toNat - 48)) 0

/-- Python `int(s)` on a string: optional surrounding whitespace, an optional
sign, then a nonempty digit run; `none` models the `ValueError`. -/
def pyInt (s : String) : Option Int :=
  let t := trimChars s.data
  let p : Int × List Char :=
    match t with
    | '-' :: rest => (-1, rest)
    | '+' :: rest => (1, rest)
    | _ => (1, t)
  if p.2 ≠ [] ∧ p.2.all Char.isDigit then some (p.1 * digitsToNat p.2) else none

/-- `os.path.basename`: the component after the last slash. -/
def basename (s : String) : String := ⟨(splitChars '/' s.data).getLastD s.data⟩

/-- `os.path.basename(filename).split("_")[0]`. -/
def leadingToken (s : String) : String := ⟨(splitChars '_' (basename s).data).headD []⟩

/-- Days from 1970-01-01 of the civil date `(y, m, d)` in the proleptic
Gregorian calendar (all divisions act on nonnegative operands for the years
1..9999 the code can construct). -/
def daysFromCivil (y m d : Int) : Int :=
  let y2 := if m ≤ 2 then y - 1 else y
  let era := y2 / 400
  let yoe := y2 - era * 400
  let mp := (m + 9) % 12
  let doy := (153 * mp + 2) / 5 + d - 1
  let doe := yoe * 365 + yoe / 4 - yoe / 100 + doy
  era * 146097 + doe - 719468

/-- `datetime(y, m, d, h, mi, s).timestamp()`: Unix epoch seconds of the
civil datetime. -/
def epoch (y m d h mi s : Int) : Int :=
  daysFromCivil y m d * 86400 + h * 3600 + mi * 60 + s

/-- Errors construction can raise: the `RuntimeError` of the integrity check
(carrying its message), and the `ValueError` raised while parsing a
discovered filename's year — by `int()` on an unparsable leading token or by
`datetime()` on a year outside 1..9999. -/
inductive CdlError where
  | integrityError (msg : String)
  | parseError (filename : String)
deriving DecidableEq, Repr

/-- The message of the `RuntimeError` raised when `_check_integrity` fails:
it carries the remediation hint to enable download. -/
def integrityMsg : String :=
  "Dataset not found or corrupted. You can use download=True to download it"

/-- The index entry the constructor inserts for file `fn` with parsed year
`y`: spatial bounds from `rasterio.open(fn).bounds`, temporal bounds
`[Jan 1 00:00:00 of y, Dec 31 23:59:59 of y]` as epoch seconds, assembled in
the order `(minx, maxx, miny, maxy, mint, maxt)`. -/
def entryFor (fs : FileSystem) (fn : String) (y : Int) : IndexEntry :=
  let r := fs.raster fn
  { coords := { minx := r.minx, maxx := r.maxx, miny := r.miny, maxy := r.maxy,
                mint := epoch y 1 1 0 0 0, maxt := epoch y 12 31 23 59 59 },
    filename := fn }

/-- The constructor's scan loop over the globbed files: parse the leading
token as the year (failing loudly on a `ValueError`), open the raster, and
collect the index entries in glob order. -/
def scanFiles (fs : FileSystem) : List String → Except CdlError (List IndexEntry)
  | [] => .ok []
  | fn :: rest =>
    match pyInt (leadingToken fn) with
    | none => .error (.parseError fn)
    | some y =>
      if y < 1 ∨ 9999 < y then .error (.parseError fn)
      else
        match scanFiles fs rest with
        | .error e => .error e
        | .ok l => .ok (entryFor fs fn y :: l)

/-- A query result: the mapping `{"masks": ...}` with the window's pixels as
signed 32-bit integers. -/
structure Sample where
  masks : List (List Int)
deriving DecidableEq, Repr

/-- The constructed `CDL` instance: the fields `__init__` stores plus the
populated spatiotemporal index (entries in insertion order). -/
structure Dataset where
  root : String
  transforms : Option (Sample → Sample)
  checksum : Bool
  index : List IndexEntry

/-- The tail of `CDL.__init__` after the optional download: gate on
`_check_integrity` (raising the `RuntimeError` with the remediation hint when
it fails), then glob, parse and index the raster files. -/
def verify_and_scan (fs1 : FileSystem) (root : String)
    (transforms : Option (Sample → Sample)) (checksum : Bool) :
    Except CdlError Dataset :=
  if check_integrity_all fs1 checksum then
    match scanFiles fs1 fs1.imgs with
    | .error e => .error e
    | .ok idx =>
        .ok { root := root, transforms := transforms,
              checksum := checksum, index := idx }
  else .error (.integrityError integrityMsg)

/-- `CDL.__init__` as a function from the pre-existing filesystem state to
either an error or a usable instance, also reporting the fetches performed.
`fetchEffect` is the external archive fetcher's action on the filesystem. -/
def construct (fetchEffect : FileSystem → Fetch → FileSystem) (fs : FileSystem)
    (root : String) (transforms : Option (Sample → Sample))
    (download checksum : Bool) : List Fetch × Except CdlError Dataset :=
  let fetches := if download then download_fetches fs root checksum else []
  let fs1 := fetches.foldl fetchEffect fs
  (fetches, verify_and_scan fs1 root transforms checksum)

/-- Errors `__getitem__` can raise: `notFound` models the `StopIteration`
raised by `next(hits)` when no index entry intersects the query — a
not-found condition signalled to the caller. -/
inductive QueryError where
  | notFound
deriving DecidableEq, Repr

/-- `rasterio.windows.Window(col_off, row_off, width, height)`. -/
structure Window where
  col_off : Int
  row_off : Int
  width : Int
  height : Int
deriving DecidableEq, Repr

/-- The window `__getitem__` builds:
`Window(query.minx, query.miny, query.maxx - query.minx, query.maxy - query.miny)`. -/
def windowOf (q : BoundingBox) : Window :=
  { col_off := q.minx, row_off := q.miny,
    width := q.maxx - q.minx, height := q.maxy - q.miny }

/-- numpy `astype(np.int32)` on a stored cell value. -/
def toInt32 (v : Nat) : Int :=
  let m := v % 4294967296
  if m < 2147483648 then (m : Int) else (m : Int) - 4294967296

/-- `f.read(1, window=w)` followed by `astype(np.int32)`: the window's pixel
block as `height` rows of `width` signed 32-bit values. -/
def readWindow (r : RasterFile) (w : Window) : List (List Int) :=
  (List.range w.height.toNat).map fun (i : Nat) =>
    (List.range w.width.toNat).map fun (j : Nat) =>
      toInt32 (r.px (w.row_off + (i : Int)) (w.col_off + (j : Int)))

/-- `CDL.__getitem__` with the state passed explicitly: compute the window,
take the first intersecting index entry (`next(hits)`), read that file's
window, and return the sample; the instance state is returned alongside. -/
def getitem (fs : FileSystem) (d : Dataset) (q : BoundingBox) :
    Except QueryError Sample × Dataset :=
  let w := windowOf q
  match d.index.find? (fun e => intersects e.coords q) with
  | none => (.error .notFound, d)
  | some hit =>
      let masks := readWindow (fs.raster hit.filename) w
      (.ok { masks := masks }, d)

/-- The file a query resolves to: the first index entry whose bounds
intersect the query. -/
def resolveFile (d : Dataset) (q : BoundingBox) : Option String :=
  (d.index.find? fun e => intersects e.coords q).map (·.filename)

/-! ### Concrete fixtures used to instantiate the theorems -/

/-- A raster covering (0,0)-(100,100) whose every cell stores 7. -/
def rasterW : RasterFile :=
  { minx := 0, miny := 0, maxx := 100, maxy := 100, px := fun _ _ => 7 }

/-- A fetcher with no modelled effect on the filesystem. -/
def feId : FileSystem → Fetch → FileSystem := fun fs _ => fs

/-- Root state with every archive present and no raster file. -/
def fsAll : FileSystem :=
  { zipPresent := fun _ => true, zipHash := fun _ => "", imgs := [],
    raster := fun _ => rasterW }

/-- Root state where only the 2019 archive is missing. -/
def fs3 : FileSystem := { fsAll with zipPresent := fun y => y != 2019 }

/-- Root state with every archive present and the single raster file
`2015_30m_cdls.img` with bounds (0,0)-(100,100). -/
def fsImg2015 : FileSystem := { fsAll with imgs := ["2015_30m_cdls.img"] }

/-- Root state with every archive present and a raster file whose leading
token is non-numeric. -/
def fsBadName : FileSystem := { fsAll with imgs := ["abc_30m_cdls.img"] }

/-- The index entry construction derives from `2015_30m_cdls.img`. -/
def entry2015 : IndexEntry := entryFor fsImg2015 "2015_30m_cdls.img" 2015

/-- An instance whose index holds exactly the 2015 entry. -/
def dsOne : Dataset :=
  { root := "data", transforms := none, checksum := false, index := [entry2015] }

/-- A mid-2015 query volume for the (10,60)x(10,60) block. -/
def q2015 : BoundingBox :=
  { minx := 10, maxx := 60, miny := 10, maxy := 60,
    mint := 1434000000, maxt := 1434000000 }

/-- A query volume spatially inside the 2015 raster but with a temporal
range (the epoch instant 0) intersecting no entry. -/
def qMiss : BoundingBox :=
  { minx := 10, maxx := 60, miny := 10, maxy := 60, mint := 0, maxt := 0 }

/-- A transform that is visibly not the identity on any sample with pixels. -/
def tfEmpty : Sample → Sample := fun _ => { masks := [] }

/-- `dsOne` with `tfEmpty` supplied as the `transforms` argument. -/
def dsOneTf : Dataset := { dsOne with transforms := some tfEmpty }

/-- A small query volume for a 2x2 block of the 2015 raster. -/
def qSmall : BoundingBox :=
  { minx := 0, maxx := 2, miny := 0, maxy := 2,
    mint := 1434000000, maxt := 1434000000 }

/-! ### Helper lemmas -/

/-- `__getitem__` returns the instance state unchanged on both paths. -/
lemma getitem_snd (fs : FileSystem) (d : Dataset) (q : BoundingBox) :
    (getitem fs d q).2 = d := by
  unfold getitem
  cases d.index.find? (fun e => intersects e.coords q) <;> rfl

/-- `List.all` is determined by the predicate's values on members. -/
lemma list_all_congr {α : Type} (l : List α) (f g : α → Bool)
    (h : ∀ x ∈ l, f x = g x) : l.all f = l.all g := by
  induction l with
  | nil => rfl
  | cons a t ih =>
      simp only [List.all_cons]
      rw [h a (List.mem_cons_self a t), ih fun x hx => h x (List.mem_cons_of_mem a hx)]

/-- `List.all` is false as soon as one member fails the predicate. -/
lemma list_all_false_of_mem {α : Type} {l : List α} {f : α → Bool} {x : α}
    (hx : x ∈ l) (hf : f x = false) : l.all f = false := by
  cases h : l.all f with
  | false => rfl
  | true =>
      rw [List.all_eq_true] at h
      rw [h x hx] at hf
      exact absurd hf (by simp)

/-- A file whose leading token does not parse makes the scan loop fail with
a parse error (possibly reported for an earlier file in the list). -/
lemma scanFiles_parse_failure (fs : FileSystem) (l : List String) (fn : String)
    (hmem : fn ∈ l) (hparse : pyInt (leadingToken fn) = none) :
    ∃ fn2, scanFiles fs l = .error (.parseError fn2) := by
  induction l with
  | nil => cases hmem
  | cons a t ih =>
      unfold scanFiles
      cases hpa : pyInt (leadingToken a) with
      | none => exact ⟨a, rfl⟩
      | some y =>
          have hat : fn ∈ t := by
            cases List.mem_cons.mp hmem with
            | inl he => rw [he] at hparse; rw [hparse] at hpa; cases hpa
            | inr ht => exact ht
          obtain ⟨fn2, herr⟩ := ih hat
          by_cases hy : y < 1 ∨ 9999 < y
          · exact ⟨a, by simp [hy]⟩
          · exact ⟨fn2, by simp [hy, herr]⟩

/-- Every entry produced by a successful scan comes from a globbed file with
a parsable year and is exactly the entry the constructor builds for it. -/
lemma scanFiles_ok_mem (fs : FileSystem) (l : List String)
    (entries : List IndexEntry) (hok : scanFiles fs l = .ok entries) :
    ∀ e ∈ entries, ∃ fn, fn ∈ l ∧ ∃ y, pyInt (leadingToken fn) = some y ∧
      e = entryFor fs fn y := by
  induction l generalizing entries with
  | nil =>
      unfold scanFiles at hok
      cases hok
      intro e he
      cases he
  | cons a t ih =>
      unfold scanFiles at hok
      split at hok
      · cases hok
      case h_2 y hpa =>
        split at hok
        · cases hok
        · split at hok
          · cases hok
          case h_2 l2 hrest =>
            cases hok
            intro e he
            cases List.mem_cons.mp he with
            | inl heq =>
                exact ⟨a, List.mem_cons_self a t, y, hpa, heq⟩
            | inr ht =>
                obtain ⟨fn, hfn, y2, hy2, he2⟩ := ih l2 hrest e ht
                exact ⟨fn, List.mem_cons_of_mem a hfn, y2, hy2, he2⟩

/-! ### Claim theorems -/

/-- C1: for every query volume that intersects no entry of the index,
`__getitem__` fails with the not-found error (the `StopIteration` of
`next(hits)` on an empty hit sequence), rather than returning an
empty-result success. -/
theorem query_miss_fails_not_found (fs : FileSystem) (d : Dataset)
    (q : BoundingBox) (h : ∀ e ∈ d.index, intersects e.coords q = false) :
    (getitem fs d q).1 = .error .notFound := by
  have hnone : d.index.find? (fun e => intersects e.coords q) = none := by
    apply List.find?_eq_none.mpr
    intro e he
    simp [h e he]
  unfold getitem
  rw [hnone]

/-- Witness for C1: a one-entry index queried with a temporal range
(the epoch instant 0) outside the 2015 entry's bounds. -/
theorem query_miss_fails_not_found_witness :
    (∀ e ∈ dsOne.index, intersects e.coords qMiss = false) ∧
    (getitem fsImg2015 dsOne qMiss).1 = .error .notFound :=
  ⟨by decide, query_miss_fails_not_found fsImg2015 dsOne qMiss (by decide)⟩

/-- C2: when a query resolves to a raster file, the pixel window read has
origin `(minx, miny)`, width `maxx - minx` and height `maxy - miny`, and the
returned sample's `masks` field holds that window's pixels as signed 32-bit
integers — `height` rows of `width` values each. -/
theorem query_window_shape (fs : FileSystem) (d : Dataset) (q : BoundingBox)
    (hit : IndexEntry)
    (h : d.index.find? (fun e => intersects e.coords q) = some hit) :
    (getitem fs d q).1 =
      .ok { masks := readWindow (fs.raster hit.filename) (windowOf q) } ∧
    windowOf q = { col_off := q.minx, row_off := q.miny,
                   width := q.maxx - q.minx, height := q.maxy - q.miny } ∧
    (readWindow (fs.raster hit.filename) (windowOf q)).length
      = (q.maxy - q.miny).toNat ∧
    ∀ row ∈ readWindow (fs.raster hit.filename) (windowOf q),
      row.length = (q.maxx - q.minx).toNat := by
  refine ⟨?_, rfl, ?_, ?_⟩
  · unfold getitem
    rw [h]
  · unfold readWindow
    rw [List.length_map, List.length_range]
    rfl
  · intro row hrow
    unfold readWindow at hrow
    obtain ⟨i, hi, rfl⟩ := List.mem_map.mp hrow
    rw [List.length_map, List.length_range]
    rfl

/-- Witness for C2: the query `(10, 60, 10, 60, t, t)` with `t` mid-2015
against the single file with bounds (0,0)-(100,100) yields a 50 x 50 masks
array. -/
theorem query_window_shape_witness :
    dsOne.index.find? (fun e => intersects e.coords q2015) = some entry2015 ∧
    ((getitem fsImg2015 dsOne q2015).1 =
       .ok { masks := readWindow (fsImg2015.raster entry2015.filename)
                        (windowOf q2015) } ∧
     windowOf q2015 = { col_off := q2015.minx, row_off := q2015.miny,
                        width := q2015.maxx - q2015.minx,
                        height := q2015.maxy - q2015.miny } ∧
     (readWindow (fsImg2015.raster entry2015.filename)
        (windowOf q2015)).length = (q2015.maxy - q2015.miny).toNat ∧
     ∀ row ∈ readWindow (fsImg2015.raster entry2015.filename) (windowOf q2015),
       row.length = (q2015.maxx - q2015.minx).toNat) ∧
    (q2015.maxy - q2015.miny).toNat = 50 ∧ (q2015.maxx - q2015.minx).toNat = 50 :=
  ⟨by decide, query_window_shape fsImg2015 dsOne q2015 entry2015 (by decide),
   by decide, by decide⟩

/-- C3 counterexample: with the 2019 archive missing and every other archive
present, the (2020, md5) pair's own integrity check passes, yet construction
with download enabled still invokes the fetcher for 2020 — `_download` keys
the skip on the global check, not on the per-year checks. -/
theorem download_per_year_skip_counterexample :
    (2020, "97b3b5fd62177c9ed857010bca146f36") ∈ md5s ∧
    check_file fs3 false 2020 "97b3b5fd62177c9ed857010bca146f36" = true ∧
    fetchFor "data" false (2020, "97b3b5fd62177c9ed857010bca146f36")
      ∈ (construct feId fs3 "data" none true false).1 :=
  ⟨by decide, by decide, by decide⟩

/-- C3 amended: with download enabled, if the integrity check over all
(year, md5) pairs passes, no fetch is performed; otherwise the fetcher is
invoked once per known pair, with the year-specific URL, the destination
`root/cdl`, and the pair's checksum exactly when checksum verification is
enabled. -/
theorem download_fetch_policy (fe : FileSystem → Fetch → FileSystem)
    (fs : FileSystem) (root : String) (tr : Option (Sample → Sample))
    (checksum : Bool) :
    (check_integrity_all fs checksum = true →
       (construct fe fs root tr true checksum).1 = []) ∧
    (check_integrity_all fs checksum = false →
       (construct fe fs root tr true checksum).1
         = md5s.map (fetchFor root checksum)) := by
  have h1 : (construct fe fs root tr true checksum).1
      = download_fetches fs root checksum := rfl
  constructor
  · intro hc
    rw [h1]
    simp [download_fetches, hc]
  · intro hc
    rw [h1]
    simp [download_fetches, hc]

/-- Witness for the amended C3: a fully-present root fetches nothing; the
root missing 2019 fetches the whole table. -/
theorem download_fetch_policy_witness :
    (check_integrity_all fsAll false = true ∧
     (construct feId fsAll "data" none true false).1 = []) ∧
    (check_integrity_all fs3 false = false ∧
     (construct feId fs3 "data" none true false).1
       = md5s.map (fetchFor "data" false)) :=
  ⟨⟨by decide, (download_fetch_policy feId fsAll "data" none false).1 (by decide)⟩,
   ⟨by decide, (download_fetch_policy feId fs3 "data" none false).2 (by decide)⟩⟩

/-- C4 (code bug): the `transforms` argument is stored by `__init__` but
never invoked by `__getitem__` — the query result is independent of it, and
on a concrete instance with a visibly non-identity transform the returned
sample is the raw window, not the transformed one. -/
theorem transforms_never_applied :
    dsOneTf.transforms = some tfEmpty ∧
    (∀ (fs : FileSystem) (d : Dataset) (q : BoundingBox)
       (t : Option (Sample → Sample)),
       (getitem fs { d with transforms := t } q).1 = (getitem fs d q).1) ∧
    (getitem fsImg2015 dsOneTf qSmall).1 = .ok { masks := [[7, 7], [7, 7]] } ∧
    tfEmpty { masks := [[7, 7], [7, 7]] } ≠ { masks := [[7, 7], [7, 7]] } :=
  ⟨rfl,
   fun fs d q t => by
     cases d with
     | mk r tr ch idx =>
         unfold getitem
         cases idx.find? (fun e => intersects e.coords q) <;> rfl,
   by rfl, by decide⟩

/-- C5: whenever some expected archive is missing or corrupt, construction
with download disabled fails with the integrity error carrying the
remediation hint to enable download (a single check, no retry), and no
instance is returned. -/
theorem construct_integrity_error (fe : FileSystem → Fetch → FileSystem)
    (fs : FileSystem) (root : String) (tr : Option (Sample → Sample))
    (checksum : Bool)
    (h : ∃ p ∈ md5s, check_file fs checksum p.1 p.2 = false) :
    (construct fe fs root tr false checksum).2
      = .error (.integrityError integrityMsg) := by
  obtain ⟨p, hp, hf⟩ := h
  have hall : check_integrity_all fs checksum = false :=
    list_all_false_of_mem hp hf
  have h2 : (construct fe fs root tr false checksum).2
      = verify_and_scan fs root tr checksum := rfl
  rw [h2]
  unfold verify_and_scan
  rw [hall]
  rfl

/-- Witness for C5: the root missing the 2019 archive fails construction
with the integrity error. -/
theorem construct_integrity_error_witness :
    (∃ p ∈ md5s, check_file fs3 false p.1 p.2 = false) ∧
    (construct feId fs3 "data" none false false).2
      = .error (.integrityError integrityMsg) :=
  ⟨by decide, construct_integrity_error feId fs3 "data" none false (by decide)⟩

/-- C6: every entry of a successfully constructed index comes from a globbed
file whose leading token parses as a year `y`, carries that file's name, and
has coordinates `(minx, maxx, miny, maxy, mint, maxt)` with the raster's
spatial bounds and the temporal bounds `[Jan 1 00:00:00 of y,
Dec 31 23:59:59 of y]` as epoch seconds. -/
theorem index_entry_year_bounds (fe : FileSystem → Fetch → FileSystem)
    (fs : FileSystem) (root : String) (tr : Option (Sample → Sample))
    (checksum : Bool) (d : Dataset)
    (h : (construct fe fs root tr false checksum).2 = .ok d) :
    ∀ e ∈ d.index, ∃ fn, fn ∈ fs.imgs ∧ ∃ y,
      pyInt (leadingToken fn) = some y ∧ e.filename = fn ∧
      e.coords = { minx := (fs.raster fn).minx, maxx := (fs.raster fn).maxx,
                   miny := (fs.raster fn).miny, maxy := (fs.raster fn).maxy,
                   mint := epoch y 1 1 0 0 0,
                   maxt := epoch y 12 31 23 59 59 } := by
  have h2 : verify_and_scan fs root tr checksum = .ok d := h
  unfold verify_and_scan at h2
  split at h2
  · split at h2
    · cases h2
    case h_2 idx hrest =>
      cases h2
      intro e he
      obtain ⟨fn, hfn, y, hy, he2⟩ := scanFiles_ok_mem fs fs.imgs idx hrest e he
      subst he2
      exact ⟨fn, hfn, y, hy, rfl, rfl⟩
  · cases h2

/-- Witness for C6: constructing over the single file `2015_30m_cdls.img`
yields exactly the 2015 entry, whose temporal bounds are the epoch seconds
1420070400 (2015-01-01 00:00:00) and 1451606399 (2015-12-31 23:59:59). -/
theorem index_entry_year_bounds_witness :
    (construct feId fsImg2015 "data" none false false).2 = .ok dsOne ∧
    (∀ e ∈ dsOne.index, ∃ fn, fn ∈ fsImg2015.imgs ∧ ∃ y,
      pyInt (leadingToken fn) = some y ∧ e.filename = fn ∧
      e.coords = { minx := (fsImg2015.raster fn).minx,
                   maxx := (fsImg2015.raster fn).maxx,
                   miny := (fsImg2015.raster fn).miny,
                   maxy := (fsImg2015.raster fn).maxy,
                   mint := epoch y 1 1 0 0 0,
                   maxt := epoch y 12 31 23 59 59 }) ∧
    entry2015.coords.mint = 1420070400 ∧ entry2015.coords.maxt = 1451606399 :=
  ⟨by rfl,
   index_entry_year_bounds feId fsImg2015 "data" none false dsOne (by rfl),
   by decide, by decide⟩

/-- C7: a globbed file whose leading token is absent or non-numeric makes
construction fail with a parse error (once the integrity gate has passed);
the file is never silently skipped. -/
theorem unparsable_year_fails (fe : FileSystem → Fetch → FileSystem)
    (fs : FileSystem) (root : String) (tr : Option (Sample → Sample))
    (checksum : Bool) (fn : String)
    (h1 : fn ∈ fs.imgs) (h2 : pyInt (leadingToken fn) = none)
    (h3 : check_integrity_all fs checksum = true) :
    ∃ fn2, (construct fe fs root tr false checksum).2
      = .error (.parseError fn2) := by
  obtain ⟨fn2, herr⟩ := scanFiles_parse_failure fs fs.imgs fn h1 h2
  refine ⟨fn2, ?_⟩
  have hv : (construct fe fs root tr false checksum).2
      = verify_and_scan fs root tr checksum := rfl
  rw [hv]
  unfold verify_and_scan
  rw [h3, herr]
  rfl

/-- Witness for C7: the file `abc_30m_cdls.img` fails construction with a
parse error. -/
theorem unparsable_year_fails_witness :
    "abc_30m_cdls.img" ∈ fsBadName.imgs ∧
    pyInt (leadingToken "abc_30m_cdls.img") = none ∧
    check_integrity_all fsBadName false = true ∧
    ∃ fn2, (construct feId fsBadName "data" none false false).2
      = .error (.parseError fn2) :=
  ⟨by decide, by decide, by decide,
   unparsable_year_fails feId fsBadName "data" none false "abc_30m_cdls.img"
     (by decide) (by decide) (by decide)⟩

/-- C8: issuing the same query twice against an unmodified instance resolves
to the same file both times, and the second call returns the same result as
the first. -/
theorem query_idempotent_same_file (fs : FileSystem) (d : Dataset)
    (q : BoundingBox) :
    resolveFile (getitem fs d q).2 q = resolveFile d q ∧
    (getitem fs (getitem fs d q).2 q).1 = (getitem fs d q).1 := by
  rw [getitem_snd]
  exact ⟨rfl, rfl⟩

/-- C9: the integrity check reads only the archives' presence and hashes —
two roots agreeing on those agree on the check regardless of their raster
files — and construction succeeds over a root with all archives but no
raster file, yielding an instance with an empty index. -/
theorem integrity_ignores_rasters :
    (∀ (fs fs2 : FileSystem) (checksum : Bool),
       (∀ y, fs.zipPresent y = fs2.zipPresent y) →
       (∀ y, fs.zipHash y = fs2.zipHash y) →
       check_integrity_all fs checksum = check_integrity_all fs2 checksum) ∧
    (∀ (fe : FileSystem → Fetch → FileSystem) (fs : FileSystem) (root : String)
       (tr : Option (Sample → Sample)) (checksum : Bool),
       check_integrity_all fs checksum = true → fs.imgs = [] →
       (construct fe fs root tr false checksum).2 =
         .ok { root := root, transforms := tr, checksum := checksum,
               index := [] }) := by
  constructor
  · intro fs fs2 checksum hp hh
    exact list_all_congr md5s _ _ fun p _ => by
      unfold check_file
      rw [hp p.1, hh p.1]
  · intro fe fs root tr checksum hc himgs
    have hv : (construct fe fs root tr false checksum).2
        = verify_and_scan fs root tr checksum := rfl
    rw [hv]
    unfold verify_and_scan
    rw [hc, himgs]
    rfl

/-- Witness for C9: `fsAll` and `fsImg2015` differ only in raster files and
agree on the check; `fsAll` constructs successfully with an empty index. -/
theorem integrity_ignores_rasters_witness :
    check_integrity_all fsAll false = check_integrity_all fsImg2015 false ∧
    (construct feId fsAll "data" none false false).2 =
      .ok { root := "data", transforms := none, checksum := false,
            index := [] } :=
  ⟨integrity_ignores_rasters.1 fsAll fsImg2015 false (fun _ => rfl)
     (fun _ => rfl),
   integrity_ignores_rasters.2 feId fsAll "data" none false (by decide) rfl⟩

/-- C10: `__getitem__` leaves the instance unchanged — root, transforms,
checksum flag and the whole index are identical after the call, whether it
returns a sample or fails. -/
theorem getitem_frame (fs : FileSystem) (d : Dataset) (q : BoundingBox) :
    (getitem fs d q).2.root = d.root ∧
    (getitem fs d q).2.transforms = d.transforms ∧
    (getitem fs d q).2.checksum = d.checksum ∧
    (getitem fs d q).2.index = d.index := by
  rw [getitem_snd]
  exact ⟨rfl, rfl, rfl, rfl⟩

end CdlSpec
